import Mathlib

/-!
Verification of the event-tracking script `website/scripts/tracking.js`.

The script is embedded shallowly:

* A DOM element is a record of the attributes the script reads (`tagName`,
  `type`, `className`, `id`, `textContent`, `alt`, `src`) together with the
  results of the two ancestry queries it performs (`closest('nav')` and
  `closest('form')`, modelled as booleans).
* JavaScript's `className` may be a plain string (HTML elements) or a
  non-string object such as `SVGAnimatedString` (SVG elements); the latter is
  truthy but has no `includes` method, so calling `includes` on it throws.
  This is modelled by the `ClassName` sum type, with exceptions as `Except`.
* JavaScript string truthiness is emptiness testing; `substring(0, n)` is
  `jsSubstring`, `includes` is `strIncludes`, `split('/')`/`pop()` and
  `split(' ')`/`join('.')` are modelled with `String.splitOn`.
* `localStorage` holds a single key `trackingEvents`; it is modelled as an
  `Option String` (`none` = key absent, `getItem` returns `null`).
* Wall-clock time (`new Date().toISOString()`) is passed in as an explicit
  `now : String` parameter.
* Side effects (the beacon send, the triggered download, console output) are
  returned as data.
-/

/-- JavaScript `s.substring(0, n)` (also `s.slice(0, n)`): the first `n`
characters of `s`. -/
def jsSubstring (s : String) (n : Nat) : String :=
  String.mk (s.data.take n)

/-- JavaScript `s.trim()`: strip whitespace from both ends. -/
def jsTrim (s : String) : String :=
  String.mk (((s.data.dropWhile Char.isWhitespace).reverse.dropWhile Char.isWhitespace).reverse)

/-- JavaScript `s.toLowerCase()`. -/
def jsToLower (s : String) : String :=
  String.mk (s.data.map Char.toLower)

/-- Does the list start with the given pattern? -/
def listStarts : List Char → List Char → Bool
  | [], _ => true
  | _ :: _, [] => false
  | a :: as, b :: bs => a = b && listStarts as bs

/-- Does the list contain the pattern as a contiguous run? -/
def listHasInfix (sub : List Char) : List Char → Bool
  | [] => sub.isEmpty
  | b :: bs => listStarts sub (b :: bs) || listHasInfix sub bs

/-- JavaScript `s.includes(sub)`: substring containment. -/
def strIncludes (s sub : String) : Bool :=
  listHasInfix sub.data s.data

/-- The dynamic type of the DOM `className` property: a plain string for HTML
elements, or a non-string object (e.g. `SVGAnimatedString` on SVG elements),
which is always truthy and has no `includes` method. -/
inductive ClassName where
  | str (s : String)
  | obj
deriving DecidableEq

/-- JavaScript truthiness of the `className` value: a string is truthy iff
non-empty; any object is truthy. -/
def ClassName.truthy : ClassName → Bool
  | .str s => s ≠ ""
  | .obj => true

/-- Calling `.includes(sub)` on the `className` value: works on strings,
throws a `TypeError` (modelled as `Except.error ()`) on a non-string object. -/
def ClassName.includes : ClassName → String → Except Unit Bool
  | .str s, sub => .ok (strIncludes s sub)
  | .obj, _ => .error ()

/-- A DOM element, restricted to the properties the tracking script reads.
`closestNav` and `closestForm` record whether `element.closest('nav')` and
`element.closest('form')` return an ancestor (non-null). -/
structure Element where
  tagName : String
  type : String
  className : ClassName
  id : String
  textContent : String
  alt : String
  src : String
  closestNav : Bool
  closestForm : Bool
deriving DecidableEq

/-- `determineElementType` from `tracking.js` (lines 52–86). Returns
`Except.error ()` when the JavaScript code would throw (calling
`className.includes` on a non-string `className`). -/
def determineElementType (element : Element) : Except Unit String :=
  let tagName := jsToLower element.tagName
  if tagName = "a" then .ok "link"
  else if tagName = "button" then .ok "button"
  else if tagName = "img" then .ok "image"
  else if tagName = "input" then
    .ok (if element.type ≠ "" then "input-" ++ element.type else "input")
  else if tagName = "select" then .ok "dropdown"
  else if tagName = "textarea" then .ok "textarea"
  else if element.closestNav then .ok "navigation"
  else if tagName = "li" then .ok "list-item"
  else if tagName ∈ ["h1", "h2", "h3", "h4", "h5", "h6"] then .ok "heading"
  else if element.closestForm then .ok "form-element"
  else if element.className.truthy then
    match element.className.includes "btn" with
    | .error e => .error e
    | .ok true => .ok "button"
    | .ok false =>
      match element.className.includes "card" with
      | .error e => .error e
      | .ok true => .ok "card"
      | .ok false =>
        match element.className.includes "icon" with
        | .error e => .error e
        | .ok true => .ok "icon"
        | .ok false => .ok tagName
  else .ok tagName

/-- `getElementDescription` from `tracking.js` (lines 93–121). The `stepN`
locals correspond to the numbered rules in the source; a rule that does not
apply falls through to the next one. -/
def getElementDescription (element : Element) : String :=
  let step5 := jsToLower element.tagName
  let step4 :=
    if jsToLower element.tagName = "img" then
      if element.alt ≠ "" then element.alt
      else (element.src.splitOn "/").getLastD ""
    else step5
  let step3 :=
    match element.className with
    | .str s => if s ≠ "" then "." ++ String.intercalate "." (s.splitOn " ") else step4
    | .obj => step4
  let step2 :=
    if element.textContent ≠ "" then
      let textContent := jsTrim element.textContent
      if textContent ≠ "" then
        if textContent.length > 30 then jsSubstring textContent 27 ++ "..."
        else textContent
      else step3
    else step3
  if element.id ≠ "" then "#" ++ element.id
  else step2

/-- The payload sent with `navigator.sendBeacon` (a `Blob` of the given MIME
type posted to the given URL). -/
structure Beacon where
  url : String
  mimeType : String
  payload : String
deriving DecidableEq

/-- The browser download triggered by `downloadTrackingData`: the anchor's
`download` attribute (filename) and the data URI's MIME type and payload. -/
structure Download where
  filename : String
  mimeType : String
  content : String
deriving DecidableEq

/-- `localStorage`, restricted to the one key the script uses
(`trackingEvents`); `none` models the key being absent. -/
structure Storage where
  trackingEvents : Option String
deriving DecidableEq

/-- The effects of one `saveEventToFile` call: the beacon that was sent, the
updated `localStorage`, and the download, when one was triggered. -/
structure SaveResult where
  beacon : Beacon
  storage : Storage
  download : Option Download
deriving DecidableEq

/-- `downloadTrackingData` from `tracking.js` (lines 164–184): reads the full
buffer, builds an anchor with `href = data:text/plain;charset=utf-8,<buffer>`
and `download = tracking_data_<ISO date>.txt` (the first ten characters of
`toISOString()` are the `YYYY-MM-DD` date), clicks it, and resets the stored
events to the empty string. `now` is `new Date().toISOString()` at the moment
of the call. -/
def downloadTrackingData (now : String) (st : Storage) : Storage × Download :=
  let trackingData := st.trackingEvents.getD ""
  (⟨some ""⟩,
   { filename := "tracking_data_" ++ jsSubstring now 10 ++ ".txt"
     mimeType := "text/plain"
     content := trackingData })

/-- `saveEventToFile` from `tracking.js` (lines 144–159): sends the beacon,
appends `eventData ++ "\n"` to the stored buffer (creating it if absent), and,
when the buffer length read *before* the append exceeds 10000, triggers the
download (which reads the post-append buffer and then resets it). -/
def saveEventToFile (eventData : String) (now : String) (st : Storage) : SaveResult :=
  let beacon : Beacon :=
    { url := "/tracking-endpoint", mimeType := "text/plain", payload := eventData ++ "\n" }
  let storedEvents := st.trackingEvents.getD ""
  let st1 : Storage := ⟨some (storedEvents ++ eventData ++ "\n")⟩
  if storedEvents.length > 10000 then
    let r := downloadTrackingData now st1
    { beacon := beacon, storage := r.1, download := some r.2 }
  else
    { beacon := beacon, storage := st1, download := none }

/-- `logEvent` from `tracking.js` (lines 129–138): formats the record, logs it
to the console (first component) and forwards it to `saveEventToFile`. `now`
is `new Date().toISOString()`. -/
def logEvent (eventType objectType objectDescription : String) (now : String)
    (st : Storage) : String × SaveResult :=
  let timestamp := now
  let logEntry := timestamp ++ ", " ++ eventType ++ ", " ++ objectType ++ ":" ++ objectDescription
  (logEntry, saveEventToFile logEntry now st)

/-- Running `saveEventToFile` on a sequence of `(eventData, now)` pairs,
collecting the downloads that were triggered along the way. -/
def runSave : List (String × String) → Storage → Storage × List Download
  | [], st => (st, [])
  | (d, now) :: rest, st =>
    let r := saveEventToFile d now st
    ((runSave rest r.storage).1, r.download.toList ++ (runSave rest r.storage).2)

/-- One entry passed to the `IntersectionObserver` callback: whether the
target is intersecting (at the 0.5 threshold) and the target's `id`. -/
structure ObserverEntry where
  isIntersecting : Bool
  targetId : String
deriving DecidableEq

/-- The `IntersectionObserver` callback from `tracking.js` (lines 24–32),
restricted to the log records it emits: for each intersecting entry, in order,
a `("view", "section", id-or-unnamed)` record. -/
def sectionObserverCallback : List ObserverEntry → List (String × String × String)
  | [] => []
  | entry :: rest =>
    (if entry.isIntersecting then
      [("view", "section", if entry.targetId ≠ "" then entry.targetId else "unnamed-section")]
     else []) ++ sectionObserverCallback rest

/-- The records logged by a sequence of intersection-observer callback
invocations, in order. -/
def sectionViewLogs (callbacks : List (List ObserverEntry)) : List (String × String × String) :=
  (callbacks.map sectionObserverCallback).flatten

/-- Number of occurrences of the record `r` in a log. -/
def countRecord (r : String × String × String) : List (String × String × String) → Nat
  | [] => 0
  | x :: l => (if x = r then 1 else 0) + countRecord r l

/-- Number of observer entries reporting the section with id `i` as
intersecting. -/
def countIntersecting (i : String) : List ObserverEntry → Nat
  | [] => 0
  | en :: l => (if en.isIntersecting ∧ en.targetId = i then 1 else 0) + countIntersecting i l

/-- The records `d₁ ++ "\n" ++ d₂ ++ "\n" ++ ⋯` of an event sequence, each
with its trailing newline, in firing order. -/
def concatRecords : List (String × String) → String
  | [] => ""
  | (d, _) :: rest => d ++ "\n" ++ concatRecords rest

/-! ### Helper lemmas -/

/-- The text rule of `getElementDescription`: with an empty id and a trimmed
text content that is non-empty, the description is the trimmed text, truncated
to its first 27 characters plus an ellipsis when longer than 30 characters. -/
theorem desc_text_eq (e : Element) (h1 : e.id = "") (h2 : jsTrim e.textContent ≠ "") :
    getElementDescription e =
      if (jsTrim e.textContent).length > 30 then jsSubstring (jsTrim e.textContent) 27 ++ "..."
      else jsTrim e.textContent := by
  have htc : e.textContent ≠ "" := fun h => h2 (by rw [h]; rfl)
  simp [getElementDescription, h1, htc, h2]

/-- `jsSubstring` returns at most `n` characters. -/
theorem jsSubstring_length_le (s : String) (n : Nat) : (jsSubstring s n).length ≤ n := by
  show (s.data.take n).length ≤ n
  rw [List.length_take]
  exact Nat.min_le_left _ _

/-- `countRecord` is additive over list append. -/
theorem countRecord_append (r : String × String × String)
    (l₁ l₂ : List (String × String × String)) :
    countRecord r (l₁ ++ l₂) = countRecord r l₁ + countRecord r l₂ := by
  induction l₁ with
  | nil => simp [countRecord]
  | cons x l ih => simp [countRecord, ih]; omega

/-- `countIntersecting` is additive over list append. -/
theorem countIntersecting_append (i : String) (l₁ l₂ : List ObserverEntry) :
    countIntersecting i (l₁ ++ l₂) =
      countIntersecting i l₁ + countIntersecting i l₂ := by
  induction l₁ with
  | nil => simp [countIntersecting]
  | cons x l ih => simp [countIntersecting, ih]; omega

/-- In one observer callback, the number of `("view", "section", "hero")`
records emitted equals the number of entries reporting the `hero` section as
intersecting. -/
theorem countRecord_hero_callback (entries : List ObserverEntry) :
    countRecord ("view", "section", "hero") (sectionObserverCallback entries) =
      countIntersecting "hero" entries := by
  induction entries with
  | nil => rfl
  | cons en rest ih =>
    by_cases hi : en.isIntersecting
    · by_cases hid : en.targetId = "hero"
      · simp [sectionObserverCallback, countRecord, countIntersecting, hi, hid, ih]
      · by_cases hz : en.targetId = ""
        · simp [sectionObserverCallback, countRecord, countIntersecting, hi, hid, hz, ih]
        · simp [sectionObserverCallback, countRecord, countIntersecting, hi, hid, hz, ih]
    · simp [sectionObserverCallback, countRecord, countIntersecting, hi, ih]

/-! ### Concrete elements and scenarios used as witnesses and counterexamples -/

/-- An SVG element (`<circle class="dot">`): its `className` is an
`SVGAnimatedString`, not a string. It matches no tag rule and has no `nav` or
`form` ancestor, so classification reaches the class-name checks. -/
def svgElement : Element :=
  { tagName := "circle", type := "", className := .obj, id := "", textContent := "",
    alt := "", src := "", closestNav := false, closestForm := false }

/-- A button with an id, text and a class, sitting inside a form. -/
def elemWithId : Element :=
  { tagName := "BUTTON", type := "", className := .str "cta", id := "submit-btn",
    textContent := "Submit", alt := "", src := "", closestNav := false, closestForm := true }

/-- A paragraph with no id and a long, whitespace-padded text content. -/
def elemLongText : Element :=
  { tagName := "P", type := "", className := .str "", id := "",
    textContent := "  The quick brown fox jumps over the lazy dog  ",
    alt := "", src := "", closestNav := false, closestForm := false }

/-- A div with no id, whitespace-only text content, and a class list. -/
def elemWhitespace : Element :=
  { tagName := "DIV", type := "", className := .str "card special", id := "",
    textContent := "   ", alt := "", src := "", closestNav := false, closestForm := false }

/-- The hero section reported as at least 50% visible. -/
def heroEnter : ObserverEntry := { isIntersecting := true, targetId := "hero" }

/-- The hero section reported as no longer 50% visible. -/
def heroLeave : ObserverEntry := { isIntersecting := false, targetId := "hero" }

/-! ### Claims -/

/-- C2 (code bug): `determineElementType` is not total. On an element whose
`className` is not a string — e.g. any SVG element, whose `className` is an
always-truthy `SVGAnimatedString` — the guard `if (element.className)`
succeeds and `element.className.includes('btn')` throws a `TypeError`,
contradicting the documented contract `@return {string}` and the spec's
"No errors; always returns a string" (note that `getElementDescription`
guards this very case with `typeof element.className === 'string'`). -/
theorem determineElementType_throws_on_nonstring_className :
    determineElementType svgElement = .error () := rfl

/-- C4: for every element with a non-empty id, `getElementDescription`
returns `#` followed by the id, regardless of all other attributes. -/
theorem getElementDescription_id_rule (e : Element) (h : e.id ≠ "") :
    getElementDescription e = "#" ++ e.id := by
  simp [getElementDescription, h]

/-- Witness for C4 at a concrete button element. -/
theorem getElementDescription_id_rule_witness :
    elemWithId.id ≠ "" ∧ getElementDescription elemWithId = "#" ++ elemWithId.id :=
  ⟨by decide, getElementDescription_id_rule elemWithId (by decide)⟩

/-- C5: for every element with an empty id whose trimmed text content is
non-empty, the description is the trimmed text when it has at most 30
characters, and its first 27 characters followed by `...` when longer. -/
theorem getElementDescription_text_rule (e : Element) (h1 : e.id = "")
    (h2 : jsTrim e.textContent ≠ "") :
    getElementDescription e =
      if (jsTrim e.textContent).length > 30 then jsSubstring (jsTrim e.textContent) 27 ++ "..."
      else jsTrim e.textContent :=
  desc_text_eq e h1 h2

/-- Witness for C5 at a concrete element with 43 characters of trimmed text. -/
theorem getElementDescription_text_rule_witness :
    elemLongText.id = "" ∧ jsTrim elemLongText.textContent ≠ "" ∧
    getElementDescription elemLongText =
      (if (jsTrim elemLongText.textContent).length > 30 then
        jsSubstring (jsTrim elemLongText.textContent) 27 ++ "..."
      else jsTrim elemLongText.textContent) :=
  ⟨rfl, by decide, getElementDescription_text_rule elemLongText rfl (by decide)⟩

/-- C10 (implicit): with an empty id, whenever the text content trims to the
empty string (in particular when it is non-empty but all whitespace), the text
rule produces nothing and the description falls through to the later rules —
it equals the description of the same element with empty text content. And
whenever the text rule does apply, the description has at most 30
characters. -/
theorem getElementDescription_whitespace_fallthrough (e : Element) (h1 : e.id = "") :
    (jsTrim e.textContent = "" →
      getElementDescription e = getElementDescription { e with textContent := "" }) ∧
    (jsTrim e.textContent ≠ "" → (getElementDescription e).length ≤ 30) := by
  constructor
  · intro hw
    cases e with
    | mk tg ty cn i tc al sr nv fm =>
      by_cases htc : tc = "" <;>
        simp_all [getElementDescription]
  · intro h2
    rw [desc_text_eq e h1 h2]
    split_ifs with h3
    · rw [String.length_append]
      have hsub := jsSubstring_length_le (jsTrim e.textContent) 27
      have hdots : ("..." : String).length = 3 := rfl
      omega
    · omega

/-- Witness for C10 at a concrete whitespace-text element: the description
falls through to the class rule. -/
theorem getElementDescription_whitespace_fallthrough_witness :
    getElementDescription elemWhitespace =
      getElementDescription { elemWhitespace with textContent := "" } :=
  (getElementDescription_whitespace_fallthrough elemWhitespace rfl).1 (by decide)

/-- C3 counterexample: the observer callback logs the hero section again after
it leaves and re-enters the 50%-visible state. In the callback sequence
"enter, leave, re-enter" the record `("view", "section", "hero")` is logged
twice, refuting "exactly once ... and no further record is logged by any later
intersection callback (including callbacks after the element left and
re-entered)". -/
theorem sectionObserver_relogs_on_reentry :
    countRecord ("view", "section", "hero")
      (sectionViewLogs [[heroEnter], [heroLeave], [heroEnter]]) = 2 := by decide

/-- C3 amended: a `view, section:hero` record is logged exactly at those
intersection-observer callbacks whose entry reports the hero section as
intersecting — once when it first reaches the 50% threshold and not again
while it stays above threshold (the observer only fires on crossings), but
again each time the section re-enters the 50%-visible state. Formally, the
number of hero view records equals the number of intersecting hero entries
across all callbacks. -/
theorem sectionViewLogs_count_eq_intersecting (callbacks : List (List ObserverEntry)) :
    countRecord ("view", "section", "hero") (sectionViewLogs callbacks) =
      countIntersecting "hero" callbacks.flatten := by
  induction callbacks with
  | nil => rfl
  | cons cb rest ih =>
    simp only [sectionViewLogs, List.map_cons, List.flatten_cons] at ih ⊢
    rw [countRecord_append, countIntersecting_append, countRecord_hero_callback, ih]

/-! ### Persistence and export -/

/-- A 10001-character buffer, strictly exceeding the export threshold. -/
def bigBuf : String := String.mk (List.replicate 10001 'a')

/-- The big buffer has 10001 characters. -/
theorem bigBuf_length : bigBuf.length = 10001 := by
  show (List.replicate 10001 'a').length = 10001
  exact List.length_replicate _ _

/-- The beacon sent by `saveEventToFile` is the same in both branches: the
record plus a newline, as `text/plain`, to `/tracking-endpoint`. -/
theorem saveEventToFile_beacon (d now : String) (st : Storage) :
    (saveEventToFile d now st).beacon =
      { url := "/tracking-endpoint", mimeType := "text/plain", payload := d ++ "\n" } := by
  by_cases hc : (st.trackingEvents.getD "").length > 10000 <;>
    simp [saveEventToFile, hc]

/-- After any `saveEventToFile` call the storage key exists. -/
theorem saveEventToFile_storage_some (d now : String) (st : Storage) :
    (saveEventToFile d now st).storage.trackingEvents ≠ none := by
  by_cases hc : (st.trackingEvents.getD "").length > 10000 <;>
    simp [saveEventToFile, downloadTrackingData, hc]

/-- When no download is triggered, `saveEventToFile` appends the record plus a
newline to the buffer and the pre-append buffer was within the threshold. -/
theorem saveEventToFile_noDownload (d now : String) (st : Storage)
    (h : (saveEventToFile d now st).download = none) :
    (saveEventToFile d now st).storage.trackingEvents =
      some (st.trackingEvents.getD "" ++ d ++ "\n") := by
  unfold saveEventToFile at h ⊢
  by_cases hc : (st.trackingEvents.getD "").length > 10000
  · simp [hc] at h
  · simp [hc]

/-- Running a split event sequence runs the two halves in sequence and
concatenates their downloads. -/
theorem runSave_append_eq (a b : List (String × String)) (st : Storage) :
    runSave (a ++ b) st =
      ((runSave b (runSave a st).1).1,
       (runSave a st).2 ++ (runSave b (runSave a st).1).2) := by
  induction a generalizing st with
  | nil => simp [runSave]
  | cons e rest ih =>
    obtain ⟨d, now⟩ := e
    simp [runSave, ih, List.append_assoc]

/-- A run that triggers no export appends exactly the records, each with a
trailing newline, in order, to the initial buffer. -/
theorem runSave_noExport_val (evs : List (String × String)) (st : Storage)
    (h : (runSave evs st).2 = []) :
    (runSave evs st).1.trackingEvents.getD "" =
      st.trackingEvents.getD "" ++ concatRecords evs := by
  induction evs generalizing st with
  | nil => simp [runSave, concatRecords]
  | cons e rest ih =>
    obtain ⟨d, now⟩ := e
    simp only [runSave] at h ⊢
    rw [List.append_eq_nil] at h
    obtain ⟨h1, h2⟩ := h
    have hdl : (saveEventToFile d now st).download = none := by
      cases hdl : (saveEventToFile d now st).download <;> simp [hdl] at h1 ⊢
    have hst := saveEventToFile_noDownload d now st hdl
    rw [ih _ h2, hst]
    simp [concatRecords, String.append_assoc]

/-- After a non-empty run the storage key exists. -/
theorem runSave_storage_some (evs : List (String × String)) (st : Storage)
    (hne : evs ≠ []) : (runSave evs st).1.trackingEvents ≠ none := by
  induction evs generalizing st with
  | nil => exact absurd rfl hne
  | cons e rest ih =>
    obtain ⟨d, now⟩ := e
    simp only [runSave]
    by_cases hr : rest = []
    · subst hr
      simpa [runSave] using saveEventToFile_storage_some d now st
    · exact ih _ hr

/-- C1: in `saveEventToFile`, an export is triggered if and only if the buffer
length read from storage before the append strictly exceeds 10000: in that case
the exported content is the old buffer plus the just-appended triggering record
plus its newline, and the buffer is reset to the empty string immediately
afterwards; otherwise no export occurs and the buffer is left equal to the old
buffer plus the record plus a newline. -/
theorem saveEventToFile_threshold_iff (eventData now : String) (st : Storage) :
    ((st.trackingEvents.getD "").length > 10000 →
        (∃ dl, (saveEventToFile eventData now st).download = some dl ∧
          dl.content = st.trackingEvents.getD "" ++ eventData ++ "\n") ∧
        (saveEventToFile eventData now st).storage.trackingEvents = some "") ∧
    ((st.trackingEvents.getD "").length ≤ 10000 →
        (saveEventToFile eventData now st).download = none ∧
        (saveEventToFile eventData now st).storage.trackingEvents =
          some (st.trackingEvents.getD "" ++ eventData ++ "\n")) := by
  constructor
  · intro h
    unfold saveEventToFile downloadTrackingData
    simp [h]
  · intro h
    unfold saveEventToFile
    simp [show ¬ (st.trackingEvents.getD "").length > 10000 from by omega]

/-- Witness for C1: a 10001-character buffer triggers the export and the
reset; an empty buffer triggers neither. -/
theorem saveEventToFile_threshold_iff_witness :
    ((∃ dl, (saveEventToFile "e" "2025-01-02T03:04:05.678Z" ⟨some bigBuf⟩).download = some dl ∧
        dl.content = bigBuf ++ "e" ++ "\n") ∧
      (saveEventToFile "e" "2025-01-02T03:04:05.678Z" ⟨some bigBuf⟩).storage.trackingEvents =
        some "") ∧
    ((saveEventToFile "e" "t" ⟨none⟩).download = none ∧
      (saveEventToFile "e" "t" ⟨none⟩).storage.trackingEvents = some ("" ++ "e" ++ "\n")) := by
  constructor
  · exact (saveEventToFile_threshold_iff "e" "2025-01-02T03:04:05.678Z" ⟨some bigBuf⟩).1
      (by show bigBuf.length > 10000; rw [bigBuf_length]; omega)
  · exact (saveEventToFile_threshold_iff "e" "t" ⟨none⟩).2
      (by show ("" : String).length ≤ 10000; decide)

/-- The first ten characters of a concrete ISO timestamp are its date. -/
theorem jsSubstring_iso_date :
    jsSubstring "2025-03-04T05:06:07.890Z" 10 = "2025-03-04" := by decide

/-- C7: every triggered export downloads a file named
`tracking_data_<YYYY-MM-DD>.txt` — the date being the first ten characters of
the single `toISOString()` taken at the export moment, one date for the whole
file — with MIME type `text/plain`, whose content is the entire accumulated
buffer at export time, up to and including the triggering record. -/
theorem downloadTrackingData_export_shape (eventData now : String) (st : Storage)
    (h : (st.trackingEvents.getD "").length > 10000) :
    (saveEventToFile eventData now st).download =
      some { filename := "tracking_data_" ++ jsSubstring now 10 ++ ".txt"
             mimeType := "text/plain"
             content := st.trackingEvents.getD "" ++ eventData ++ "\n" } := by
  unfold saveEventToFile downloadTrackingData
  simp [h]

/-- Witness for C7 at a concrete timestamp and a 10001-character buffer. -/
theorem downloadTrackingData_export_shape_witness :
    (saveEventToFile "e" "2025-03-04T05:06:07.890Z" ⟨some bigBuf⟩).download =
      some { filename := "tracking_data_2025-03-04.txt", mimeType := "text/plain",
             content := bigBuf ++ "e" ++ "\n" } := by
  rw [downloadTrackingData_export_shape "e" "2025-03-04T05:06:07.890Z" ⟨some bigBuf⟩
      (by show bigBuf.length > 10000; rw [bigBuf_length]; omega)]
  rw [jsSubstring_iso_date]
  rfl

/-- C8: the stored log buffer is append-only and order-preserving between
exports: over any event sequence that triggers no export, the final buffer is
the initial buffer followed by each record with its trailing newline in firing
order; the buffer exists after the first append (created if absent); and the
buffer after any prefix of the run is a prefix of the final buffer (so its
length grows monotonically). -/
theorem trackingEvents_append_only (evs : List (String × String)) (st : Storage)
    (h : (runSave evs st).2 = []) :
    ((runSave evs st).1.trackingEvents.getD "" =
        st.trackingEvents.getD "" ++ concatRecords evs) ∧
    (evs ≠ [] → (runSave evs st).1.trackingEvents ≠ none) ∧
    (∀ i : Nat, ∃ t : String,
        (runSave evs st).1.trackingEvents.getD "" =
          (runSave (evs.take i) st).1.trackingEvents.getD "" ++ t) := by
  refine ⟨runSave_noExport_val evs st h, fun hne => runSave_storage_some evs st hne,
    fun i => ?_⟩
  have hsplit := runSave_append_eq (evs.take i) (evs.drop i) st
  rw [List.take_append_drop] at hsplit
  have hfst : (runSave evs st).1 =
      (runSave (evs.drop i) (runSave (evs.take i) st).1).1 := by
    rw [hsplit]
  have hsnd : (runSave evs st).2 =
      (runSave (evs.take i) st).2 ++ (runSave (evs.drop i) (runSave (evs.take i) st).1).2 := by
    rw [hsplit]
  have h2 : (runSave (evs.drop i) (runSave (evs.take i) st).1).2 = [] :=
    (List.append_eq_nil.mp (hsnd ▸ h)).2
  exact ⟨concatRecords (evs.drop i), by
    rw [hfst, runSave_noExport_val (evs.drop i) (runSave (evs.take i) st).1 h2]⟩

/-- Witness for C8: two events on an initially absent buffer, no export. -/
theorem trackingEvents_append_only_witness :
    (runSave [("a", "t1"), ("b", "t2")] ⟨none⟩).1.trackingEvents.getD "" =
      "" ++ concatRecords [("a", "t1"), ("b", "t2")] :=
  (trackingEvents_append_only [("a", "t1"), ("b", "t2")] ⟨none⟩ rfl).1

/-- C9: for all input strings, `logEvent` builds exactly one record formatted
as `timestamp, kind, type:description`, writes it to the console (the first
component), and forwards exactly that line to `saveEventToFile`, whose beacon
carries the line plus a newline; there is no failure path (the function is
total). -/
theorem logEvent_record_format (eventType objectType objectDescription now : String)
    (st : Storage) :
    (logEvent eventType objectType objectDescription now st).1 =
        now ++ ", " ++ eventType ++ ", " ++ objectType ++ ":" ++ objectDescription ∧
    (logEvent eventType objectType objectDescription now st).2 =
        saveEventToFile
          (now ++ ", " ++ eventType ++ ", " ++ objectType ++ ":" ++ objectDescription) now st ∧
    (logEvent eventType objectType objectDescription now st).2.beacon =
        { url := "/tracking-endpoint", mimeType := "text/plain",
          payload := (now ++ ", " ++ eventType ++ ", " ++ objectType ++ ":" ++
            objectDescription) ++ "\n" } :=
  ⟨rfl, rfl, saveEventToFile_beacon _ now st⟩

/-! ### The classification policy as the spec words it -/

/-- `strIncludes` finds nothing in the empty string. -/
theorem strIncludes_empty_btn : strIncludes "" "btn" = false := rfl

/-- `strIncludes` finds nothing in the empty string. -/
theorem strIncludes_empty_card : strIncludes "" "card" = false := rfl

/-- `strIncludes` finds nothing in the empty string. -/
theorem strIncludes_empty_icon : strIncludes "" "icon" = false := rfl

/-- The classification policy exactly as the spec words it, first match wins:
explicit tag mapping (a→link, button→button, img→image,
input→`input-<type>` or `input` when the type is absent, select→dropdown,
textarea→textarea), then containment in a nav ancestor→navigation, then tag
li→list-item, then tags h1–h6→heading, then containment in a form
ancestor→form-element, then class-name substring checks (btn→button,
card→card, icon→icon), then the lowercase tag name as fallback. `s` is the
element's class attribute read as a string. -/
def classifierPolicy (e : Element) (s : String) : String :=
  let tag := jsToLower e.tagName
  if tag = "a" then "link"
  else if tag = "button" then "button"
  else if tag = "img" then "image"
  else if tag = "input" then (if e.type = "" then "input" else "input-" ++ e.type)
  else if tag = "select" then "dropdown"
  else if tag = "textarea" then "textarea"
  else if e.closestNav then "navigation"
  else if tag = "li" then "list-item"
  else if tag ∈ ["h1", "h2", "h3", "h4", "h5", "h6"] then "heading"
  else if e.closestForm then "form-element"
  else if strIncludes s "btn" then "button"
  else if strIncludes s "card" then "card"
  else if strIncludes s "icon" then "icon"
  else tag

/-- C6: on every element whose `className` is a string `s` (every HTML
element), `determineElementType` applies its rules in exactly the
first-match-wins order the spec states: it returns, without throwing, the
result of `classifierPolicy`. -/
theorem determineElementType_first_match_order (e : Element) (s : String)
    (h : e.className = ClassName.str s) :
    determineElementType e = .ok (classifierPolicy e s) := by
  obtain ⟨tg, ty, cn, i, tc, al, sr, nv, fm⟩ := e
  subst h
  unfold determineElementType classifierPolicy
  simp only [ClassName.truthy, ClassName.includes]
  by_cases h1 : jsToLower tg = "a"
  · simp [h1]
  by_cases h2 : jsToLower tg = "button"
  · simp [h1, h2]
  by_cases h3 : jsToLower tg = "img"
  · simp [h1, h2, h3]
  by_cases h4 : jsToLower tg = "input"
  · simp [h1, h2, h3, h4]
  by_cases h5 : jsToLower tg = "select"
  · simp [h1, h2, h3, h4, h5]
  by_cases h6 : jsToLower tg = "textarea"
  · simp [h1, h2, h3, h4, h5, h6]
  by_cases h7 : nv = true
  · simp [h1, h2, h3, h4, h5, h6, h7]
  by_cases h8 : jsToLower tg = "li"
  · simp [h1, h2, h3, h4, h5, h6, h7, h8]
  by_cases h9 : jsToLower tg ∈ ["h1", "h2", "h3", "h4", "h5", "h6"]
  · simp [h1, h2, h3, h4, h5, h6, h7, h8, h9]
  by_cases h10 : fm = true
  · simp [h1, h2, h3, h4, h5, h6, h7, h8, h9, h10]
  by_cases hs : s = ""
  · subst hs
    simp [h1, h2, h3, h4, h5, h6, h7, h8, h9, h10,
      strIncludes_empty_btn, strIncludes_empty_card, strIncludes_empty_icon]
  · cases hbtn : strIncludes s "btn" <;>
    cases hcard : strIncludes s "card" <;>
    cases hicon : strIncludes s "icon" <;>
    simp [h1, h2, h3, h4, h5, h6, h7, h8, h9, h10, hs, hbtn, hcard, hicon]

/-- A div with a `btn` class, no id rules involved, no nav or form ancestor. -/
def elemBtnClass : Element :=
  { tagName := "DIV", type := "", className := .str "btn primary", id := "x",
    textContent := "", alt := "", src := "", closestNav := false, closestForm := false }

/-- Witness for C6 at a concrete element whose class list contains `btn`. -/
theorem determineElementType_first_match_order_witness :
    elemBtnClass.className = ClassName.str "btn primary" ∧
    determineElementType elemBtnClass = .ok (classifierPolicy elemBtnClass "btn primary") ∧
    classifierPolicy elemBtnClass "btn primary" = "button" :=
  ⟨rfl, determineElementType_first_match_order elemBtnClass "btn primary" rfl, by decide⟩
